import Mathlib

/-!
Shallow embedding of the duplicate-detection subsystem of
`app/services/duplicate_detector.py` (class `DuplicateDetector`), together
with theorems settling the specification claims about it.

Python strings are modelled as Lean `String`; Python dicts that the code
only reads in insertion order are modelled as association lists; Python
sets of path strings are modelled as `Finset String`; float arithmetic is
idealised as real arithmetic (`ℝ`), with `np.linalg.norm` as
`Real.sqrt` of the dot product; a fallible embedding client is a function
`String → Option (List ℝ)` where `none` stands for a raised exception.
-/

namespace DocuGen

/-- Python `str.replace(pat, rep)` on explicit character lists: replace all
non-overlapping occurrences, scanning left to right.  The `fuel` argument
makes the recursion structural; it is initialised to the length of the
string, which suffices because every step consumes at least one character
(the empty pattern is handled separately, as in `str.replace`). -/
def replaceAux (pat rep : List Char) : Nat → List Char → List Char
  | _, [] => []
  | 0, s => s
  | fuel+1, c :: rest =>
    if pat.isPrefixOf (c :: rest) then
      rep ++ replaceAux pat rep fuel ((c :: rest).drop pat.length)
    else
      c :: replaceAux pat rep fuel rest

/-- Python `s.replace(pat, rep)` (for the non-empty patterns used here). -/
def pyReplace (s pat rep : String) : String :=
  if pat.toList.isEmpty then s
  else ⟨replaceAux pat.toList rep.toList s.toList.length s.toList⟩

/-- Python substring test `sub in s`. -/
def pyContains (s sub : String) : Bool :=
  (List.range (s.toList.length + 1)).any fun i => sub.toList.isPrefixOf (s.toList.drop i)

/-- Python `s.lower()` (the data here is ASCII). -/
def pyLower (s : String) : String :=
  ⟨s.toList.map Char.toLower⟩

/-- Details of one HTTP operation: the `summary` and `description` fields,
each possibly absent (`dict.get` with default `''`). -/
structure OpDetails where
  summary : Option String
  description : Option String

/-- The `info` object of a parsed OpenAPI spec; missing fields are `none`. -/
structure ApiInfo where
  title : Option String
  description : Option String

/-- A parsed OpenAPI-style spec, reduced to the parts the detector reads:
`info`, the `paths` mapping (path string to method-name/details pairs, in
the dict's insertion order), and the schema names under
`components.schemas`. -/
structure ApiSpec where
  info : ApiInfo
  paths : List (String × List (String × OpDetails))
  schemas : List String

/-- `set(spec.get('paths', {}).keys())`. -/
def pathKeys (spec : ApiSpec) : Finset String :=
  (spec.paths.map Prod.fst).toFinset

/-- `DuplicateDetector._paths_similar`: strip `{`, `}`, the literal
substring `id` and `_` from both paths, then test containment of the
lowercased results in either direction. -/
def paths_similar (path1 path2 : String) : Bool :=
  let p1_clean := pyReplace (pyReplace (pyReplace (pyReplace path1 "\x7b" "") "\x7d" "") "id" "") "_" ""
  let p2_clean := pyReplace (pyReplace (pyReplace (pyReplace path2 "\x7b" "") "\x7d" "") "id" "") "_" ""
  pyContains (pyLower p2_clean) (pyLower p1_clean) ||
    pyContains (pyLower p1_clean) (pyLower p2_clean)

/-- `DuplicateDetector._count_overlapping_endpoints`: exact matches are the
intersection of the path-key sets; a path of `spec1` additionally counts as
one fuzzy match when it is not itself a key of `spec2` but is similar to
some key of `spec2` (the inner `for`/`break` finds at most one). -/
def count_overlapping_endpoints (spec1 spec2 : ApiSpec) : ℕ :=
  let paths1 := pathKeys spec1
  let paths2 := pathKeys spec2
  (paths1 ∩ paths2).card +
    (paths1.filter fun p1 => p1 ∉ paths2 ∧ ∃ p2 ∈ paths2, paths_similar p1 p2).card

/-- Python `str(x)` on an `Optional[str]`: `None` prints as `"None"`
(the f-strings below interpolate possibly-`None` names). -/
def pyStr : Option String → String
  | some s => s
  | none => "None"

/-- `DuplicateDetector._generate_recommendation`. -/
def generate_recommendation (overlap : ℤ) (api1_name api2_name : Option String) : String :=
  if overlap ≥ 85 then
    "High overlap detected. Consider deprecating " ++ pyStr api2_name ++
      " and migrating consumers to " ++ pyStr api1_name
  else if overlap ≥ 70 then
    "Moderate overlap. Consider consolidating overlapping functionality"
  else
    "Some similarity detected. Review for potential alignment"

/-- `DuplicateDetector._get_overlap_details`. -/
def get_overlap_details (spec1 spec2 : ApiSpec) : List String :=
  let common_paths := pathKeys spec1 ∩ pathKeys spec2
  let common_schemas := spec1.schemas.toFinset ∩ spec2.schemas.toFinset
  let details :=
    (if common_paths.Nonempty then
      ["Both expose " ++ toString common_paths.card ++ " identical endpoints"] else []) ++
    (if common_schemas.Nonempty then
      ["Share " ++ toString common_schemas.card ++ " common data models"] else [])
  if details.isEmpty then ["Similar API functionality"] else details

/-- `DuplicateDetector._summarize_api`: title, description, then per path
the path string and, for the five HTTP verbs, each operation's summary and
description; empty parts are dropped and the rest joined by single
spaces (`' '.join(filter(None, parts))`). -/
def summarize_api (spec : ApiSpec) : String :=
  let parts : List String :=
    [spec.info.title.getD "", spec.info.description.getD ""] ++
      spec.paths.flatMap fun pm =>
        pm.1 :: pm.2.flatMap fun md =>
          if md.1 ∈ ["get", "post", "put", "delete", "patch"] then
            [md.2.summary.getD "", md.2.description.getD ""]
          else []
  String.intercalate " " (parts.filter fun p => p ≠ "")

/-- `np.dot` on equal-length vectors. -/
def dotProduct (vec1 vec2 : List ℝ) : ℝ :=
  (List.zipWith (· * ·) vec1 vec2).sum

/-- `np.linalg.norm`: Euclidean norm. -/
noncomputable def vecNorm (v : List ℝ) : ℝ :=
  Real.sqrt (dotProduct v v)

/-- `DuplicateDetector._cosine_similarity`: dot product over the product of
norms, with `0.0` returned when either norm is zero. -/
noncomputable def cosine_similarity (vec1 vec2 : List ℝ) : ℝ :=
  let dot_product := dotProduct vec1 vec2
  let norm1 := vecNorm vec1
  let norm2 := vecNorm vec2
  if norm1 = 0 ∨ norm2 = 0 then 0
  else dot_product / (norm1 * norm2)

/-- The external embedding client: `none` models a raised exception
(network error, malformed response). -/
def EmbeddingClient : Type := String → Option (List ℝ)

/-- `DuplicateDetector._generate_embedding`: the client's vector, or on any
exception the zero vector of dimension 1536. -/
def generate_embedding (client : EmbeddingClient) (text : String) : List ℝ :=
  match client text with
  | some v => v
  | none => List.replicate 1536 0

/-- One previously analyzed API record: display name (`.get('name')`),
identifier, its parsed spec, and an optional cached embedding. -/
structure ExistingApi where
  name : Option String
  id : String
  spec : ApiSpec
  embedding : Option (List ℝ)

/-- One duplicate finding, as assembled in `find_duplicates`. -/
structure Finding where
  name : Option String
  api_id : String
  overlap : ℤ
  endpoints : ℕ
  recommendation : String
  details : List String

/-- Python `int()` on a float: truncation toward zero. -/
noncomputable def pyInt (x : ℝ) : ℤ :=
  if 0 ≤ x then ⌊x⌋ else ⌈x⌉

/-- `self.threshold = 0.70`. -/
def threshold : ℝ := 0.70

/-- The embedding used for an existing record: the cached one if present,
else one generated from the record's own spec summary. -/
def record_embedding (client : EmbeddingClient) (r : ExistingApi) : List ℝ :=
  match r.embedding with
  | some e => e
  | none => generate_embedding client (summarize_api r.spec)

/-- The body of the `for existing_api in existing_apis` loop in
`DuplicateDetector.find_duplicates`: skip a record whose name equals the
current spec's title, compute its similarity to the current embedding, and
above threshold assemble a finding. -/
noncomputable def process_record (client : EmbeddingClient) (spec : ApiSpec)
    (current_embedding : List ℝ) (r : ExistingApi) : Option Finding :=
  if r.name = spec.info.title then none
  else
    let similarity := cosine_similarity current_embedding (record_embedding client r)
    if threshold ≤ similarity then
      some { name := r.name
             api_id := r.id
             overlap := pyInt (similarity * 100)
             endpoints := count_overlapping_endpoints spec r.spec
             recommendation := generate_recommendation (pyInt (similarity * 100))
               spec.info.title r.name
             details := get_overlap_details spec r.spec }
    else none

/-- The comparison passed to the final sort:
`duplicates.sort(key=lambda x: x['overlap'], reverse=True)` orders by
overlap percentage, highest first, and Python's sort is stable. -/
def overlapGE (a b : Finding) : Bool :=
  decide (b.overlap ≤ a.overlap)

/-- `DuplicateDetector.find_duplicates`: summarize and embed the current
spec, accumulate one optional finding per existing record in input order,
then stably sort by overlap percentage descending. -/
noncomputable def find_duplicates (client : EmbeddingClient) (spec : ApiSpec)
    (existing_apis : List ExistingApi) : List Finding :=
  let current_embedding := generate_embedding client (summarize_api spec)
  (existing_apis.filterMap (process_record client spec current_embedding)).mergeSort overlapGE

/-! ### Concrete instances used below -/

/-- Spec A of the spec's fuzzy-match scenario: paths
`/users/{id}` and `/orders`. -/
def specScenA : ApiSpec :=
  ⟨⟨some "Spec A", none⟩, [("/users/\x7bid\x7d", []), ("/orders", [])], []⟩

/-- Spec B of the spec's fuzzy-match scenario: paths
`/user/{userId}` and `/orders`. -/
def specScenB : ApiSpec :=
  ⟨⟨some "Spec B", none⟩, [("/user/\x7buserId\x7d", []), ("/orders", [])], []⟩

/-- A one-path spec whose path is fuzzily contained in both paths of
`asymSpecB`. -/
def asymSpecA : ApiSpec := ⟨⟨none, none⟩, [("/a", [])], []⟩

/-- A two-path spec, both paths fuzzily matching the single path of
`asymSpecA`. -/
def asymSpecB : ApiSpec := ⟨⟨none, none⟩, [("/ab", []), ("/abc", [])], []⟩

/-- A client that always answers with the vector `[3, 4]`. -/
def clientC1 : EmbeddingClient := fun _ => some [3, 4]

/-- A current spec under analysis. -/
def specC1 : ApiSpec := ⟨⟨some "Current API", none⟩, [("/orders", [])], []⟩

/-- An existing record with a cached embedding `[5, 12]`, giving cosine
similarity `63/65 ≈ 0.9692` against the current embedding `[3, 4]`. -/
def recC1 : ExistingApi :=
  ⟨some "Legacy API", "api-legacy", ⟨⟨some "Legacy API", none⟩, [("/orders", [])], []⟩,
    some [5, 12]⟩

/-- The finding `find_duplicates` emits for `recC1`. -/
def findingC1 : Finding :=
  { name := some "Legacy API"
    api_id := "api-legacy"
    overlap := 96
    endpoints := count_overlapping_endpoints specC1 recC1.spec
    recommendation := generate_recommendation 96 (some "Current API") (some "Legacy API")
    details := get_overlap_details specC1 recC1.spec }

/-- A client whose every request raises. -/
def cFail : EmbeddingClient := fun _ => none

/-- A current spec titled differently from `rW`'s name. -/
def specW : ApiSpec := ⟨⟨some "Current", none⟩, [("/orders", [])], []⟩

/-- A current spec sharing its title with `rW`'s name. -/
def specSelf : ApiSpec := ⟨⟨some "Legacy", none⟩, [("/orders", [])], []⟩

/-- An existing record with no cached embedding, so its embedding must be
requested from the client. -/
def rW : ExistingApi :=
  ⟨some "Legacy", "api-0", ⟨⟨some "Legacy", none⟩, [("/orders", [])], []⟩, none⟩

/-! ### Helper lemmas -/

theorem dotProduct_self (v : List ℝ) : dotProduct v v = (v.map fun x => x * x).sum := by
  rw [dotProduct, List.zipWith_same]

theorem dotProduct_self_nonneg (v : List ℝ) : 0 ≤ dotProduct v v := by
  rw [dotProduct_self]
  apply List.sum_nonneg
  intro x hx
  obtain ⟨y, -, rfl⟩ := List.mem_map.mp hx
  exact mul_self_nonneg y

theorem dotProduct_self_pos : ∀ (v : List ℝ), (∃ x ∈ v, x ≠ 0) → 0 < dotProduct v v
  | [], h => by simp at h
  | a :: t, h => by
    rw [dotProduct_self, List.map_cons, List.sum_cons]
    obtain ⟨x, hx, hx0⟩ := h
    rcases List.mem_cons.mp hx with rfl | hxt
    · have ht : 0 ≤ (t.map fun x => x * x).sum := by
        rw [← dotProduct_self]; exact dotProduct_self_nonneg t
      have : 0 < x * x := mul_self_pos.mpr hx0
      linarith
    · have ht : 0 < (t.map fun x => x * x).sum := by
        rw [← dotProduct_self]; exact dotProduct_self_pos t ⟨x, hxt, hx0⟩
      have := mul_self_nonneg a
      linarith

theorem dotProduct_replicate_zero : ∀ (v : List ℝ) (n : ℕ),
    dotProduct v (List.replicate n 0) = 0
  | [], _ => rfl
  | _ :: _, 0 => rfl
  | a :: t, n+1 => by
    rw [dotProduct, List.replicate_succ, List.zipWith_cons_cons, List.sum_cons,
      ← dotProduct, dotProduct_replicate_zero t n, mul_zero, zero_add]

theorem vecNorm_replicate_zero (n : ℕ) : vecNorm (List.replicate n 0) = 0 := by
  rw [vecNorm, dotProduct_replicate_zero, Real.sqrt_zero]

theorem cosine_similarity_of_norm_zero {vec1 vec2 : List ℝ}
    (h : vecNorm vec1 = 0 ∨ vecNorm vec2 = 0) : cosine_similarity vec1 vec2 = 0 := by
  rw [cosine_similarity, if_pos h]

theorem cosine_similarity_replicate_zero (v : List ℝ) (n : ℕ) :
    cosine_similarity v (List.replicate n 0) = 0 :=
  cosine_similarity_of_norm_zero (Or.inr (vecNorm_replicate_zero n))

theorem find_duplicates_eq (client : EmbeddingClient) (spec : ApiSpec)
    (apis : List ExistingApi) :
    find_duplicates client spec apis =
      (apis.filterMap (process_record client spec
        (generate_embedding client (summarize_api spec)))).mergeSort overlapGE := rfl

theorem process_record_eq_some {client : EmbeddingClient} {spec : ApiSpec}
    {emb : List ℝ} {r : ExistingApi} {f : Finding}
    (h : process_record client spec emb r = some f) :
    r.name ≠ spec.info.title ∧
      threshold ≤ cosine_similarity emb (record_embedding client r) ∧
      f.name = r.name ∧ f.api_id = r.id ∧
      f.overlap = pyInt (cosine_similarity emb (record_embedding client r) * 100) := by
  by_cases h1 : r.name = spec.info.title
  · simp [process_record, h1] at h
  · by_cases h2 : threshold ≤ cosine_similarity emb (record_embedding client r)
    · have hf : f = { name := r.name
                      api_id := r.id
                      overlap := pyInt (cosine_similarity emb (record_embedding client r) * 100)
                      endpoints := count_overlapping_endpoints spec r.spec
                      recommendation := generate_recommendation
                        (pyInt (cosine_similarity emb (record_embedding client r) * 100))
                        spec.info.title r.name
                      details := get_overlap_details spec r.spec } := by
        simp only [process_record, if_neg h1, if_pos h2, Option.some.injEq] at h
        exact h.symm
      exact ⟨h1, h2, by rw [hf], by rw [hf], by rw [hf]⟩
    · simp [process_record, h1, h2] at h

theorem process_record_isSome (client : EmbeddingClient) (spec : ApiSpec)
    (emb : List ℝ) (r : ExistingApi) :
    (process_record client spec emb r).isSome ↔
      (r.name ≠ spec.info.title ∧
        threshold ≤ cosine_similarity emb (record_embedding client r)) := by
  by_cases h1 : r.name = spec.info.title <;>
    by_cases h2 : threshold ≤ cosine_similarity emb (record_embedding client r) <;>
      simp [process_record, h1, h2]

theorem process_record_eq_none_of_lt {client : EmbeddingClient} {spec : ApiSpec}
    {emb : List ℝ} {r : ExistingApi}
    (h : cosine_similarity emb (record_embedding client r) < threshold) :
    process_record client spec emb r = none := by
  by_cases h1 : r.name = spec.info.title <;> simp [process_record, h1, not_le.mpr h]

theorem overlapGE_trans : ∀ (a b c : Finding), overlapGE a b → overlapGE b c → overlapGE a c := by
  intro a b c hab hbc
  simp only [overlapGE, decide_eq_true_eq] at *
  exact le_trans hbc hab

theorem overlapGE_total : ∀ (a b : Finding), overlapGE a b || overlapGE b a := by
  intro a b
  simp only [overlapGE, Bool.or_eq_true, decide_eq_true_eq]
  exact le_total b.overlap a.overlap

theorem vecNorm_34 : vecNorm [(3:ℝ), 4] = 5 := by
  rw [vecNorm]
  have h : dotProduct [(3:ℝ), 4] [(3:ℝ), 4] = 25 := by norm_num [dotProduct]
  rw [h, show (25:ℝ) = 5 ^ 2 by norm_num, Real.sqrt_sq (by norm_num)]

theorem vecNorm_512 : vecNorm [(5:ℝ), 12] = 13 := by
  rw [vecNorm]
  have h : dotProduct [(5:ℝ), 12] [(5:ℝ), 12] = 169 := by norm_num [dotProduct]
  rw [h, show (169:ℝ) = 13 ^ 2 by norm_num, Real.sqrt_sq (by norm_num)]

theorem cosine_34_512 : cosine_similarity [(3:ℝ), 4] [(5:ℝ), 12] = 63 / 65 := by
  rw [cosine_similarity, if_neg (by rw [vecNorm_34, vecNorm_512]; norm_num)]
  rw [vecNorm_34, vecNorm_512]
  norm_num [dotProduct]

theorem pyInt_c1 : pyInt ((63:ℝ) / 65 * 100) = 96 := by
  rw [pyInt, if_pos (by norm_num), Int.floor_eq_iff]
  norm_num

theorem process_c1 :
    process_record clientC1 specC1 (generate_embedding clientC1 (summarize_api specC1)) recC1 =
      some findingC1 := by
  have h1 : generate_embedding clientC1 (summarize_api specC1) = [(3:ℝ), 4] := rfl
  have h2 : record_embedding clientC1 recC1 = [(5:ℝ), 12] := rfl
  have hsim : cosine_similarity (generate_embedding clientC1 (summarize_api specC1))
      (record_embedding clientC1 recC1) = 63 / 65 := by
    rw [h1, h2, cosine_34_512]
  rw [process_record, if_neg (by simp [recC1, specC1]), hsim,
    if_pos (by rw [threshold]; norm_num), pyInt_c1]
  rfl

theorem find_c1 : find_duplicates clientC1 specC1 [recC1] = [findingC1] := by
  rw [find_duplicates_eq, List.filterMap_cons_some process_c1, List.filterMap_nil,
    List.mergeSort_singleton]

/-! ### Claim theorems -/

/-- C1 (counterexample): at cosine similarity 63/65 the emitted finding's
overlap percentage is 96, the truncation of 96.92…, while rounding
similarity·100 to the nearest integer gives 97 — so the overlap is not
`round(similarity * 100)`. -/
theorem overlap_not_rounded :
    (find_duplicates clientC1 specC1 [recC1]).map Finding.overlap = [96]
    ∧ cosine_similarity (generate_embedding clientC1 (summarize_api specC1))
        (record_embedding clientC1 recC1) = 63 / 65
    ∧ round ((63:ℝ) / 65 * 100) = 97 := by
  refine ⟨by rw [find_c1]; rfl, ?_, ?_⟩
  · rw [show record_embedding clientC1 recC1 = [(5:ℝ), 12] from rfl,
      show generate_embedding clientC1 (summarize_api specC1) = [(3:ℝ), 4] from rfl,
      cosine_34_512]
  · rw [round_eq, Int.floor_eq_iff]
    norm_num

/-- C1 (amended): for every finding returned, its overlap percentage equals
`int(similarity * 100)` — Python truncation toward zero, which for the
over-threshold (hence nonnegative) similarities coincides with the floor —
rather than rounding to the nearest integer. -/
theorem overlap_eq_int_truncation (client : EmbeddingClient) (spec : ApiSpec)
    (apis : List ExistingApi) (f : Finding)
    (hf : f ∈ find_duplicates client spec apis) :
    ∃ r ∈ apis,
      threshold ≤ cosine_similarity (generate_embedding client (summarize_api spec))
          (record_embedding client r)
      ∧ f.overlap = pyInt (cosine_similarity (generate_embedding client (summarize_api spec))
          (record_embedding client r) * 100)
      ∧ f.overlap = ⌊cosine_similarity (generate_embedding client (summarize_api spec))
          (record_embedding client r) * 100⌋ := by
  rw [find_duplicates_eq, List.mem_mergeSort] at hf
  obtain ⟨r, hr, hsome⟩ := List.mem_filterMap.mp hf
  obtain ⟨hname, hth, hfn, hfa, hov⟩ := process_record_eq_some hsome
  have h0 : (0:ℝ) ≤ cosine_similarity (generate_embedding client (summarize_api spec))
      (record_embedding client r) :=
    le_trans (by rw [threshold]; norm_num) hth
  exact ⟨r, hr, hth, hov, by rw [hov, pyInt, if_pos (mul_nonneg h0 (by norm_num))]⟩

/-- C1 (witness): the amended statement at the concrete run of
`overlap_not_rounded`. -/
theorem overlap_eq_int_truncation_witness :
    ∃ r ∈ [recC1],
      threshold ≤ cosine_similarity (generate_embedding clientC1 (summarize_api specC1))
          (record_embedding clientC1 r)
      ∧ findingC1.overlap = pyInt (cosine_similarity
          (generate_embedding clientC1 (summarize_api specC1))
          (record_embedding clientC1 r) * 100)
      ∧ findingC1.overlap = ⌊cosine_similarity
          (generate_embedding clientC1 (summarize_api specC1))
          (record_embedding clientC1 r) * 100⌋ :=
  overlap_eq_int_truncation clientC1 specC1 [recC1] findingC1
    (by rw [find_c1]; exact List.mem_singleton_self findingC1)

/-- C2 (counterexample): on the spec's own scenario — paths
`/users/{id}`, `/orders` against `/user/{userId}`, `/orders` — the code
returns an overlap count of 1, not the claimed 2. -/
theorem countOverlap_scenario_ne_two :
    count_overlapping_endpoints specScenA specScenB ≠ 2 := by decide

/-- C2 (amended): the scenario yields exactly 1: the exact match `/orders`.
The fuzzy rule rejects `/users/{id}` vs `/user/{userId}` because
`replace('id', '')` is case-sensitive and runs before lowercasing, so the
`Id` inside `{userId}` survives, leaving `/users/` vs `/user/userid`, and
neither lowercased string contains the other. -/
theorem countOverlap_scenario_eq_one :
    count_overlapping_endpoints specScenA specScenB = 1
    ∧ paths_similar "/users/\x7bid\x7d" "/user/\x7buserId\x7d" = false :=
  ⟨by decide, by decide⟩

/-- C3: when the client fails on a record's summary (and the record has no
cached embedding), the embedding degrades to the 1536-dimensional zero
vector, the record's cosine similarity is 0, the record yields no finding,
and the scan's result is exactly that of the remaining records. -/
theorem embed_failsoft (client : EmbeddingClient) (spec : ApiSpec)
    (l₁ l₂ : List ExistingApi) (r : ExistingApi)
    (hcache : r.embedding = none)
    (hfail : client (summarize_api r.spec) = none) :
    generate_embedding client (summarize_api r.spec) = List.replicate 1536 0
    ∧ cosine_similarity (generate_embedding client (summarize_api spec))
        (record_embedding client r) = 0
    ∧ process_record client spec (generate_embedding client (summarize_api spec)) r = none
    ∧ find_duplicates client spec (l₁ ++ r :: l₂) = find_duplicates client spec (l₁ ++ l₂) := by
  have h1 : generate_embedding client (summarize_api r.spec) = List.replicate 1536 0 := by
    unfold generate_embedding
    rw [hfail]
  have h2 : record_embedding client r = List.replicate 1536 0 := by
    unfold record_embedding
    rw [hcache]
    exact h1
  have h3 : cosine_similarity (generate_embedding client (summarize_api spec))
      (record_embedding client r) = 0 := by
    rw [h2]
    exact cosine_similarity_replicate_zero _ _
  have h4 : process_record client spec (generate_embedding client (summarize_api spec)) r =
      none :=
    process_record_eq_none_of_lt (by rw [h3, threshold]; norm_num)
  refine ⟨h1, h3, h4, ?_⟩
  rw [find_duplicates_eq, find_duplicates_eq, List.filterMap_append, List.filterMap_append,
    List.filterMap_cons_none h4]

/-- C3 (witness): the fail-soft behaviour at a concrete failing client. -/
theorem embed_failsoft_witness :
    generate_embedding cFail (summarize_api rW.spec) = List.replicate 1536 0
    ∧ cosine_similarity (generate_embedding cFail (summarize_api specW))
        (record_embedding cFail rW) = 0
    ∧ process_record cFail specW (generate_embedding cFail (summarize_api specW)) rW = none
    ∧ find_duplicates cFail specW ([] ++ rW :: []) = find_duplicates cFail specW ([] ++ []) :=
  embed_failsoft cFail specW [] [] rW rfl rfl

/-- C4: a record whose stored display name equals the current spec's title
never contributes a finding: every returned finding carries a name
different from that record's name, regardless of similarity. -/
theorem self_exclusion_by_name (client : EmbeddingClient) (spec : ApiSpec)
    (apis : List ExistingApi) (r : ExistingApi)
    (_hr : r ∈ apis) (hname : r.name = spec.info.title) :
    ∀ f ∈ find_duplicates client spec apis, f.name ≠ r.name := by
  intro f hf
  rw [find_duplicates_eq, List.mem_mergeSort] at hf
  obtain ⟨r', hr', hsome⟩ := List.mem_filterMap.mp hf
  obtain ⟨hname', -, hfn, -⟩ := process_record_eq_some hsome
  rw [hfn, hname]
  exact hname'

/-- C4 (witness): self-exclusion at a concrete record sharing the current
spec's title. -/
theorem self_exclusion_by_name_witness :
    rW ∈ [rW] ∧ rW.name = specSelf.info.title ∧
      ∀ f ∈ find_duplicates cFail specSelf [rW], f.name ≠ rW.name :=
  ⟨List.mem_singleton_self rW, rfl,
    self_exclusion_by_name cFail specSelf [rW] rW (List.mem_singleton_self rW) rfl⟩

/-- C5: for every input ordering, the findings list is sorted by overlap
percentage descending, and restricted to any fixed overlap value it equals
the pre-sort findings list, which follows the input record order — the
tie-break is stable. -/
theorem findings_sorted_descending_stable (client : EmbeddingClient) (spec : ApiSpec)
    (apis : List ExistingApi) :
    List.Sorted (fun a b : Finding => b.overlap ≤ a.overlap) (find_duplicates client spec apis)
    ∧ ∀ k : ℤ,
      (find_duplicates client spec apis).filter (fun f => decide (f.overlap = k)) =
        (apis.filterMap (process_record client spec
          (generate_embedding client (summarize_api spec)))).filter
          (fun f => decide (f.overlap = k)) := by
  rw [find_duplicates_eq]
  set l := apis.filterMap
    (process_record client spec (generate_embedding client (summarize_api spec))) with hl
  constructor
  · have hp := List.sorted_mergeSort overlapGE_trans overlapGE_total l
    exact hp.imp (by intro a b h; simpa [overlapGE] using h)
  · intro k
    have hall : ∀ f ∈ l.filter (fun f => decide (f.overlap = k)), f.overlap = k := by
      intro f hf
      simpa using List.of_mem_filter hf
    have hpw : (l.filter (fun f => decide (f.overlap = k))).Pairwise
        (fun a b => overlapGE a b) := by
      apply List.pairwise_of_forall_mem_list
      intro a ha b hb
      simp only [overlapGE, decide_eq_true_eq]
      rw [hall a ha, hall b hb]
    have hsub := List.sublist_mergeSort overlapGE_trans overlapGE_total hpw
      (List.filter_sublist l)
    have hsub2 : List.Sublist (l.filter (fun f => decide (f.overlap = k)))
        ((l.mergeSort overlapGE).filter (fun f => decide (f.overlap = k))) := by
      have h2 := hsub.filter (fun f => decide (f.overlap = k))
      rwa [List.filter_eq_self.mpr (by intro f hf; simpa using hall f hf)] at h2
    have hperm := (List.mergeSort_perm l overlapGE).filter (fun f => decide (f.overlap = k))
    exact (hsub2.eq_of_length hperm.length_eq.symm).symm

/-- C6: a record yields a finding precisely when it is not name-excluded
and its cosine similarity reaches the 0.70 threshold; with no records, or
with every similarity below threshold, the result is the empty list. -/
theorem threshold_gate (client : EmbeddingClient) (spec : ApiSpec)
    (apis : List ExistingApi) (r : ExistingApi) :
    threshold = 0.70
    ∧ ((process_record client spec (generate_embedding client (summarize_api spec)) r).isSome ↔
        (r.name ≠ spec.info.title ∧
          threshold ≤ cosine_similarity (generate_embedding client (summarize_api spec))
            (record_embedding client r)))
    ∧ find_duplicates client spec [] = []
    ∧ ((∀ r' ∈ apis,
          cosine_similarity (generate_embedding client (summarize_api spec))
            (record_embedding client r') < threshold) →
        find_duplicates client spec apis = []) := by
  refine ⟨rfl, process_record_isSome _ _ _ _, ?_, ?_⟩
  · rw [find_duplicates_eq, List.filterMap_nil, List.mergeSort_nil]
  · intro hall
    have hnil : apis.filterMap (process_record client spec
        (generate_embedding client (summarize_api spec))) = [] :=
      List.filterMap_eq_nil_iff.mpr
        (fun r' hr' => process_record_eq_none_of_lt (hall r' hr'))
    rw [find_duplicates_eq, hnil, List.mergeSort_nil]

/-- C6 (witness): an all-below-threshold scan (failing client, so zero
similarity) returns the empty list. -/
theorem threshold_gate_witness : find_duplicates cFail specW [rW] = [] :=
  (threshold_gate cFail specW [rW] rW).2.2.2 (by
    intro r' hr'
    rw [List.mem_singleton] at hr'
    subst hr'
    rw [show record_embedding cFail rW = List.replicate 1536 0 from rfl,
      cosine_similarity_replicate_zero, threshold]
    norm_num)

/-- C7: when either vector has zero magnitude, cosine similarity is the
fallback 0 — the division branch is never reached. -/
theorem cosine_zero_norm (vec1 vec2 : List ℝ)
    (h : vecNorm vec1 = 0 ∨ vecNorm vec2 = 0) :
    cosine_similarity vec1 vec2 = 0 :=
  cosine_similarity_of_norm_zero h

/-- C7 (witness): the zero vector against `[1, 2]`. -/
theorem cosine_zero_norm_witness :
    (vecNorm [(0:ℝ), 0] = 0 ∨ vecNorm [(1:ℝ), 2] = 0)
    ∧ cosine_similarity [(0:ℝ), 0] [(1:ℝ), 2] = 0 := by
  have h : vecNorm [(0:ℝ), 0] = 0 := by
    rw [vecNorm, show dotProduct [(0:ℝ), 0] [(0:ℝ), 0] = 0 by norm_num [dotProduct],
      Real.sqrt_zero]
  exact ⟨Or.inl h, cosine_zero_norm _ _ (Or.inl h)⟩

/-- C8: for a vector with some nonzero entry, the cosine similarity with
itself is exactly 1 in exact arithmetic, since the dot product of `v` with
itself equals the product of its norms. -/
theorem cosine_self_eq_one (v : List ℝ) (hv : ∃ x ∈ v, x ≠ 0) :
    cosine_similarity v v = 1 := by
  have hpos := dotProduct_self_pos v hv
  have hnz : vecNorm v ≠ 0 := by
    rw [vecNorm]
    exact (Real.sqrt_pos.mpr hpos).ne'
  have hmul : vecNorm v * vecNorm v = dotProduct v v := by
    rw [vecNorm]
    exact Real.mul_self_sqrt (dotProduct_self_nonneg v)
  rw [cosine_similarity, if_neg (by rintro (h | h) <;> exact hnz h), hmul,
    div_self hpos.ne']

/-- C8 (witness): the vector `[3, 4]`. -/
theorem cosine_self_eq_one_witness :
    (∃ x ∈ [(3:ℝ), 4], x ≠ 0) ∧ cosine_similarity [(3:ℝ), 4] [(3:ℝ), 4] = 1 :=
  ⟨⟨3, by simp, by norm_num⟩, cosine_self_eq_one _ ⟨3, by simp, by norm_num⟩⟩

/-- C9: the overlap count is at most the number of (distinct) paths of the
first spec: exact and fuzzy matches are disjoint subsets of its path set. -/
theorem countOverlap_le_card (spec1 spec2 : ApiSpec) :
    count_overlapping_endpoints spec1 spec2 ≤ (pathKeys spec1).card
    ∧ (pathKeys spec1).card ≤ spec1.paths.length := by
  constructor
  · rw [count_overlapping_endpoints]
    set A := pathKeys spec1
    set B := pathKeys spec2
    set F := A.filter fun p1 => p1 ∉ B ∧ ∃ p2 ∈ B, paths_similar p1 p2 with hF
    have hdisj : Disjoint (A ∩ B) F := by
      rw [Finset.disjoint_left]
      intro x hx hxF
      exact (Finset.mem_filter.mp hxF).2.1 (Finset.mem_inter.mp hx).2
    have hsub : (A ∩ B) ∪ F ⊆ A := by
      intro x hx
      rcases Finset.mem_union.mp hx with h | h
      · exact (Finset.mem_inter.mp h).1
      · exact Finset.mem_of_mem_filter x h
    calc (A ∩ B).card + F.card = ((A ∩ B) ∪ F).card :=
          (Finset.card_union_of_disjoint hdisj).symm
      _ ≤ A.card := Finset.card_le_card hsub
  · rw [pathKeys]
    exact le_trans (List.toFinset_card_le _) (by rw [List.length_map])

/-- C10: the overlap count is not symmetric — a one-path spec fuzzily
matching both paths of a two-path spec scores 1 one way and 2 the other. -/
theorem countOverlap_not_symmetric :
    ∃ A B : ApiSpec,
      count_overlapping_endpoints A B = 1
      ∧ count_overlapping_endpoints B A = 2
      ∧ count_overlapping_endpoints A B ≠ count_overlapping_endpoints B A :=
  ⟨asymSpecA, asymSpecB, by decide, by decide, by decide⟩

end DocuGen
